import Mathlib

/-!
Verification of the redverse-crawler orchestration core against its
natural-language specification.  The TypeScript sources are shallowly
embedded: strings are lists of UTF-16 code points (`List Nat`), JavaScript
numbers that hold engagement counters are `Int`, possibly-absent fields are
`Option`, and effectful collaborators (the browser search surface, the data
store, the identity directory, the notification transport) are passed in as
explicit function or `Except` arguments.
-/

/-- Code points removed by JavaScript String.prototype.trim (WhiteSpace and
LineTerminator productions). -/
def isJsWhitespace (c : Nat) : Bool :=
  c = 0x09 || c = 0x0A || c = 0x0B || c = 0x0C || c = 0x0D || c = 0x20 ||
  c = 0xA0 || c = 0x1680 || (0x2000 ≤ c && c ≤ 0x200A) || c = 0x2028 ||
  c = 0x2029 || c = 0x202F || c = 0x205F || c = 0x3000 || c = 0xFEFF

/-- Model of String.prototype.trim on a list of code points. -/
def jsTrim (s : List Nat) : List Nat :=
  ((s.dropWhile isJsWhitespace).reverse.dropWhile isJsWhitespace).reverse

/-- CrawlerService.containsChinese: the test performed by the regular
expression character class u4e00-u9fff. -/
def containsChinese (text : List Nat) : Bool :=
  text.any (fun c => 0x4E00 ≤ c && c ≤ 0x9FFF)

/-- Minimum search length computed at the top of
CrawlerService.recursiveSearch: 1 for a name containing a Chinese character,
otherwise 2. -/
def minSearchLength (q : List Nat) : Nat :=
  if containsChinese q then 1 else 2

/-- One record of the upstream search response (interface CreatorNoteData).
The numeric fields can be absent in the raw JSON, which the code guards with
a logical-or-zero, hence `Option Int`. -/
structure CreatorNoteData where
  collected_count : Option Int
  view_count : Option Int
  likes : Option Int
  comments_count : Option Int
  shared_count : Option Int
  display_title : String
  id : String
deriving DecidableEq

/-- The aggregate built by CrawlerService.searchAndCaptureNoteData: every
counter has been materialised to a number. -/
structure AggregatedNoteData where
  collected_count : Int
  view_count : Int
  likes : Int
  comments_count : Int
  shared_count : Int
  display_title : String
  id : String
deriving DecidableEq

/-- One step of the accumulation loop in searchAndCaptureNoteData: each
counter of the record (defaulted to 0 when absent) is added to the running
aggregate. -/
def addNoteData (acc : AggregatedNoteData) (note : CreatorNoteData) : AggregatedNoteData :=
  { acc with
    collected_count := acc.collected_count + note.collected_count.getD 0
    view_count := acc.view_count + note.view_count.getD 0
    likes := acc.likes + note.likes.getD 0
    comments_count := acc.comments_count + note.comments_count.getD 0
    shared_count := acc.shared_count + note.shared_count.getD 0 }

/-- Aggregation performed by CrawlerService.searchAndCaptureNoteData on the
notes array of a captured response: nothing is captured for an empty array;
otherwise the counters start at zero, the title is the first record's
display_title, the ids are joined with commas, and every record is added. -/
def aggregateNoteData : List CreatorNoteData → Option AggregatedNoteData
  | [] => none
  | n :: ns =>
    some ((n :: ns).foldl addNoteData
      { collected_count := 0, view_count := 0, likes := 0, comments_count := 0,
        shared_count := 0, display_title := n.display_title,
        id := String.intercalate "," ((n :: ns).map (fun x => x.id)) })

/-- The data record of a successful CrawlResult. -/
structure CrawlData where
  likes_count : Int
  collects_count : Int
  comments_count : Int
  views_count : Int
  shares_count : Int
  title : String
deriving DecidableEq

/-- Conversion of the captured aggregate into CrawlResult.data, as done in
the success branch of recursiveSearch. -/
def toCrawlData (d : AggregatedNoteData) : CrawlData :=
  { likes_count := d.likes, collects_count := d.collected_count,
    comments_count := d.comments_count, views_count := d.view_count,
    shares_count := d.shared_count, title := d.display_title }

/-- Result of recursiveSearch: either a successful capture together with the
search term that produced it, or failure carrying the list of attempted
search terms (the code embeds that list in the error message). -/
inductive RecSearchResult where
  | found (data : CrawlData) (usedSearchTerm : List Nat)
  | notFound (attempts : List (List Nat))
deriving DecidableEq

/-- The countdown loop of CrawlerService.recursiveSearch.  `search` stands
for one searchAndCaptureNoteData round and returns the captured aggregate or
`none` (no matching response, or a caught per-attempt error).  The loop runs
`len` from the full length down while `len ≥ minLen`, records each candidate
in `attempts`, and stops at the first capture. -/
def searchLoop (search : List Nat → Option AggregatedNoteData) (q : List Nat)
    (minLen : Nat) : Nat → List (List Nat) → RecSearchResult
  | 0, attempts => .notFound attempts
  | len + 1, attempts =>
    if len + 1 < minLen then .notFound attempts
    else
      match search (q.take (len + 1)) with
      | some d => .found (toCrawlData d) (q.take (len + 1))
      | none => searchLoop search q minLen len (attempts ++ [q.take (len + 1)])

/-- CrawlerService.recursiveSearch: trim the name, compute the minimum
length, then run the narrowing loop from the full (trimmed) length. -/
def recursiveSearch (search : List Nat → Option AggregatedNoteData)
    (originalAppName : List Nat) : RecSearchResult :=
  let appName := jsTrim originalAppName
  searchLoop search appName (minSearchLength appName) appName.length []

/-- Spec-side helper: the candidate search terms of lengths len, len-1, ...,
m of `q`, in decreasing order of length. -/
def descCandidatesFrom (q : List Nat) (m len : Nat) : List (List Nat) :=
  (List.range (len + 1 - m)).map (fun i => q.take (len - i))

/-- Spec-side helper: the candidate search terms of lengths n, n-1, ..., m
for the whole query, in decreasing order. -/
def descCandidates (q : List Nat) (m : Nat) : List (List Nat) :=
  descCandidatesFrom q m q.length

/-- Spec-side helper: the first candidate in the list on which the search
surface yields a capture, together with that capture. -/
def firstHit (search : List Nat → Option AggregatedNoteData) :
    List (List Nat) → Option (List Nat × AggregatedNoteData)
  | [] => none
  | t :: ts =>
    match search t with
    | some d => some (t, d)
    | none => firstHit search ts

/-- Modelled from the spec's words (for comparison with the code's
`minSearchLength`): minimum length 1 when the query contains any character
outside the ASCII range, else 2. -/
def specMinLen (q : List Nat) : Nat :=
  if q.any (fun c => 127 < c) then 1 else 2

theorem descCandidatesFrom_zero (q : List Nat) (m : Nat) (hm : 1 ≤ m) :
    descCandidatesFrom q m 0 = [] := by
  unfold descCandidatesFrom
  have h : 0 + 1 - m = 0 := by omega
  rw [h]
  rfl

theorem descCandidatesFrom_of_lt (q : List Nat) (m len : Nat) (h : len + 1 < m) :
    descCandidatesFrom q m (len + 1) = [] := by
  unfold descCandidatesFrom
  have h2 : len + 1 + 1 - m = 0 := by omega
  rw [h2]
  rfl

theorem descCandidatesFrom_of_ge (q : List Nat) (m len : Nat) (h : m ≤ len + 1) :
    descCandidatesFrom q m (len + 1) =
      q.take (len + 1) :: descCandidatesFrom q m len := by
  unfold descCandidatesFrom
  have h2 : len + 1 + 1 - m = (len + 1 - m) + 1 := by omega
  rw [h2, List.range_succ_eq_map, List.map_cons, List.map_map]
  congr 1
  apply List.map_congr_left
  intro i _
  simp only [Function.comp]
  congr 1
  omega

theorem searchLoop_spec (search : List Nat → Option AggregatedNoteData)
    (q : List Nat) (m : Nat) (hm : 1 ≤ m) :
    ∀ len acc,
      (∀ t d, firstHit search (descCandidatesFrom q m len) = some (t, d) →
        searchLoop search q m len acc = .found (toCrawlData d) t) ∧
      (firstHit search (descCandidatesFrom q m len) = none →
        searchLoop search q m len acc =
          .notFound (acc ++ descCandidatesFrom q m len)) := by
  intro len
  induction len with
  | zero =>
    intro acc
    rw [descCandidatesFrom_zero q m hm]
    constructor
    · intro t d h
      simp [firstHit] at h
    · intro _
      simp [searchLoop]
  | succ len ih =>
    intro acc
    by_cases hlt : len + 1 < m
    · rw [descCandidatesFrom_of_lt q m len hlt]
      constructor
      · intro t d h
        simp [firstHit] at h
      · intro _
        simp [searchLoop, if_pos hlt]
    · have hge : m ≤ len + 1 := by omega
      rw [descCandidatesFrom_of_ge q m len hge]
      cases hs : search (q.take (len + 1)) with
      | some d =>
        constructor
        · intro t d2 h
          simp only [firstHit, hs] at h
          obtain ⟨ht, hd⟩ := Prod.mk.injEq .. ▸ (Option.some.injEq .. ▸ h)
          subst ht; subst hd
          simp [searchLoop, if_neg hlt, hs]
        · intro h
          simp only [firstHit, hs] at h
          exact Option.noConfusion h
      | none =>
        have hstep : searchLoop search q m (len + 1) acc =
            searchLoop search q m len (acc ++ [q.take (len + 1)]) := by
          simp [searchLoop, if_neg hlt, hs]
        constructor
        · intro t d h
          simp only [firstHit, hs] at h
          rw [hstep]
          exact (ih (acc ++ [q.take (len + 1)])).1 t d h
        · intro h
          simp only [firstHit, hs] at h
          rw [hstep, (ih (acc ++ [q.take (len + 1)])).2 h]
          simp

/-- Helper: the minimum search length is always at least 1. -/
theorem minSearchLength_pos (q : List Nat) : 1 ≤ minSearchLength q := by
  unfold minSearchLength
  split <;> omega

/-- C5: for a query whose trimmed form has length n and minimum length m,
recursiveSearch attempts exactly the query's candidate search terms of
lengths n, n-1, ..., m in decreasing order: it returns the captured snapshot
of the first candidate that yields a capture (no further shortening), and if
no candidate yields a capture it returns the not-found result carrying the
full list of attempted candidates. -/
theorem recursiveSearch_attempts (search : List Nat → Option AggregatedNoteData)
    (q : List Nat) :
    (∀ t d,
      firstHit search (descCandidates (jsTrim q) (minSearchLength (jsTrim q))) =
          some (t, d) →
        recursiveSearch search q = .found (toCrawlData d) t) ∧
    (firstHit search (descCandidates (jsTrim q) (minSearchLength (jsTrim q))) =
        none →
      recursiveSearch search q =
        .notFound (descCandidates (jsTrim q) (minSearchLength (jsTrim q)))) := by
  have h := searchLoop_spec search (jsTrim q) (minSearchLength (jsTrim q))
    (minSearchLength_pos (jsTrim q)) (jsTrim q).length []
  unfold recursiveSearch descCandidates
  constructor
  · intro t d hh
    exact h.1 t d hh
  · intro hh
    rw [h.2 hh]
    simp

/-- C5 witness: a two-character ASCII query on a search surface that never
captures anything attempts exactly the single candidate of length 2 and
returns it in the not-found result. -/
theorem recursiveSearch_attempts_witness :
    recursiveSearch (fun _ => none) [65, 66] = .notFound [[65, 66]] :=
  (recursiveSearch_attempts (fun _ => none) [65, 66]).2 rfl

/-- C4 counterexample: the single-character Cyrillic query "Д" (code point
1044) lies outside the ASCII range, so the claim says its minimum length is
1, but containsChinese is false on it and the code computes 2. -/
theorem minSearchLength_claim_counterexample :
    minSearchLength [1044] = 2 ∧ specMinLen [1044] = 1 ∧
      minSearchLength [1044] ≠ specMinLen [1044] := by
  decide

/-- C4 (amended): the minimum search length is 1 exactly when the query
contains a character in the CJK range u4e00-u9fff, and 2 exactly otherwise;
non-ASCII characters outside that range (Cyrillic, kana) still give 2. -/
theorem minSearchLength_eq_one_iff (q : List Nat) :
    (minSearchLength q = 1 ↔ ∃ c ∈ q, 0x4E00 ≤ c ∧ c ≤ 0x9FFF) ∧
    (minSearchLength q = 2 ↔ ¬ ∃ c ∈ q, 0x4E00 ≤ c ∧ c ≤ 0x9FFF) := by
  unfold minSearchLength containsChinese
  by_cases h : ∃ c ∈ q, 0x4E00 ≤ c ∧ c ≤ 0x9FFF
  · have hb : q.any (fun c => 0x4E00 ≤ c && c ≤ 0x9FFF) = true := by
      simp only [List.any_eq_true, Bool.and_eq_true, decide_eq_true_eq]
      exact h
    rw [hb]
    simp [h]
  · have hb : q.any (fun c => 0x4E00 ≤ c && c ≤ 0x9FFF) = false := by
      simp only [List.any_eq_false, Bool.and_eq_true, decide_eq_true_eq]
      intro c hc hcon
      exact h ⟨c, hc, hcon⟩
    rw [hb]
    simp [h]

/-- Helper: folding the accumulation step over a list adds the per-record
sums to each counter while leaving the title and ids untouched. -/
theorem foldl_addNoteData (ns : List CreatorNoteData) :
    ∀ acc : AggregatedNoteData,
      ns.foldl addNoteData acc =
        { acc with
          collected_count :=
            acc.collected_count + (ns.map (fun x => x.collected_count.getD 0)).sum
          view_count :=
            acc.view_count + (ns.map (fun x => x.view_count.getD 0)).sum
          likes := acc.likes + (ns.map (fun x => x.likes.getD 0)).sum
          comments_count :=
            acc.comments_count + (ns.map (fun x => x.comments_count.getD 0)).sum
          shared_count :=
            acc.shared_count + (ns.map (fun x => x.shared_count.getD 0)).sum } := by
  induction ns with
  | nil =>
    intro acc
    cases acc
    simp
  | cons x xs ih =>
    intro acc
    rw [List.foldl_cons, ih (addNoteData acc x)]
    simp [addNoteData, add_assoc]

/-- Sample upstream records for the aggregation instance of the claim. -/
def sampleNote1 : CreatorNoteData :=
  { collected_count := some 1, view_count := some 2, likes := some 10,
    comments_count := some 3, shared_count := some 4,
    display_title := "first", id := "n1" }

/-- Second sample upstream record. -/
def sampleNote2 : CreatorNoteData :=
  { collected_count := some 5, view_count := some 6, likes := some 20,
    comments_count := some 7, shared_count := some 8,
    display_title := "second", id := "n2" }

/-- Third sample upstream record. -/
def sampleNote3 : CreatorNoteData :=
  { collected_count := some 9, view_count := some 10, likes := some 5,
    comments_count := some 11, shared_count := some 12,
    display_title := "third", id := "n3" }

/-- C6: for every captured response with one or more records, the aggregate
sums each of the five counters across all records (absent fields counting as
zero), takes its title from the first record and joins all ids; in
particular three records with likes 10, 20 and 5 aggregate to likes 35. -/
theorem aggregateNoteData_sums :
    (∀ (n : CreatorNoteData) (ns : List CreatorNoteData),
      aggregateNoteData (n :: ns) = some
        { collected_count :=
            ((n :: ns).map (fun x => x.collected_count.getD 0)).sum
          view_count := ((n :: ns).map (fun x => x.view_count.getD 0)).sum
          likes := ((n :: ns).map (fun x => x.likes.getD 0)).sum
          comments_count :=
            ((n :: ns).map (fun x => x.comments_count.getD 0)).sum
          shared_count := ((n :: ns).map (fun x => x.shared_count.getD 0)).sum
          display_title := n.display_title
          id := String.intercalate "," ((n :: ns).map (fun x => x.id)) }) ∧
    (∃ r, aggregateNoteData [sampleNote1, sampleNote2, sampleNote3] = some r ∧
      r.likes = 35 ∧ r.display_title = sampleNote1.display_title) := by
  constructor
  · intro n ns
    have hdef : aggregateNoteData (n :: ns) =
        some ((n :: ns).foldl addNoteData
          { collected_count := 0, view_count := 0, likes := 0,
            comments_count := 0, shared_count := 0,
            display_title := n.display_title,
            id := String.intercalate "," ((n :: ns).map (fun x => x.id)) }) := rfl
    rw [hdef, foldl_addNoteData]
    simp
  · exact ⟨_, rfl, by decide, rfl⟩

/-- RetryUtil.withRetry, embedded with the operation's k-th invocation given
by `op k` and the retry condition by `retryable`.  `retryRun` is the loop
body: `left` counts the attempts still allowed after the current one; the
pair returned is the final outcome together with the number of invocations
actually made. -/
def retryRun {E A : Type} (op : Nat → Except E A) (retryable : E → Bool)
    (attempt : Nat) : Nat → Except E A × Nat
  | 0 => (op attempt, attempt)
  | left + 1 =>
    match op attempt with
    | .ok a => (.ok a, attempt)
    | .error e =>
      if retryable e then retryRun op retryable (attempt + 1) left
      else (.error e, attempt)

/-- RetryUtil.withRetry: attempts run from 1 to maxRetries + 1. -/
def withRetry {E A : Type} (op : Nat → Except E A) (retryable : E → Bool)
    (maxRetries : Nat) : Except E A × Nat :=
  retryRun op retryable 1 maxRetries

theorem retryRun_zero {E A : Type} (op : Nat → Except E A)
    (retryable : E → Bool) (attempt : Nat) :
    retryRun op retryable attempt 0 = (op attempt, attempt) := rfl

theorem retryRun_succ_ok {E A : Type} (op : Nat → Except E A)
    (retryable : E → Bool) (attempt left : Nat) (a : A)
    (hop : op attempt = .ok a) :
    retryRun op retryable attempt (left + 1) = (.ok a, attempt) := by
  simp [retryRun, hop]

theorem retryRun_succ_retry {E A : Type} (op : Nat → Except E A)
    (retryable : E → Bool) (attempt left : Nat) (e : E)
    (hop : op attempt = .error e) (hr : retryable e = true) :
    retryRun op retryable attempt (left + 1) =
      retryRun op retryable (attempt + 1) left := by
  simp [retryRun, hop, hr]

theorem retryRun_succ_stop {E A : Type} (op : Nat → Except E A)
    (retryable : E → Bool) (attempt left : Nat) (e : E)
    (hop : op attempt = .error e) (hr : retryable e = false) :
    retryRun op retryable attempt (left + 1) = (.error e, attempt) := by
  simp [retryRun, hop, hr]

theorem retryRun_count_le {E A : Type} (op : Nat → Except E A)
    (retryable : E → Bool) :
    ∀ left attempt, (retryRun op retryable attempt left).2 ≤ attempt + left := by
  intro left
  induction left with
  | zero =>
    intro attempt
    rw [retryRun_zero]
    omega
  | succ left ih =>
    intro attempt
    cases hop : op attempt with
    | ok a =>
      rw [retryRun_succ_ok op retryable attempt left a hop]
      omega
    | error e =>
      cases hr : retryable e with
      | true =>
        rw [retryRun_succ_retry op retryable attempt left e hop hr]
        have := ih (attempt + 1)
        omega
      | false =>
        rw [retryRun_succ_stop op retryable attempt left e hop hr]
        omega

theorem retryRun_last_error {E A : Type} (op : Nat → Except E A)
    (retryable : E → Bool) :
    ∀ left attempt e, (retryRun op retryable attempt left).1 = .error e →
      op (retryRun op retryable attempt left).2 = .error e := by
  intro left
  induction left with
  | zero =>
    intro attempt e h
    rw [retryRun_zero] at h ⊢
    exact h
  | succ left ih =>
    intro attempt e h
    cases hop : op attempt with
    | ok a =>
      rw [retryRun_succ_ok op retryable attempt left a hop] at h
      exact Except.noConfusion h
    | error e2 =>
      cases hr : retryable e2 with
      | true =>
        rw [retryRun_succ_retry op retryable attempt left e2 hop hr] at h ⊢
        exact ih (attempt + 1) e h
      | false =>
        rw [retryRun_succ_stop op retryable attempt left e2 hop hr] at h ⊢
        obtain rfl : e2 = e := Except.error.injEq .. ▸ h
        exact hop

theorem retryRun_stops {E A : Type} (op : Nat → Except E A)
    (retryable : E → Bool) :
    ∀ left attempt k e, attempt ≤ k → k ≤ attempt + left →
      op k = .error e → retryable e = false →
      (∀ j, attempt ≤ j → j < k →
        ∃ e2, op j = .error e2 ∧ retryable e2 = true) →
      retryRun op retryable attempt left = (.error e, k) := by
  intro left
  induction left with
  | zero =>
    intro attempt k e h1 h2 hop hr _
    have hk : k = attempt := by omega
    subst hk
    rw [retryRun_zero, hop]
  | succ left ih =>
    intro attempt k e h1 h2 hop hr hprev
    by_cases hk : attempt = k
    · subst hk
      rw [retryRun_succ_stop op retryable attempt left e hop hr]
    · have hlt : attempt < k := by omega
      obtain ⟨e2, hop2, hr2⟩ := hprev attempt (le_refl attempt) hlt
      rw [retryRun_succ_retry op retryable attempt left e2 hop2 hr2]
      exact ih (attempt + 1) k e (by omega) (by omega) hop hr
        (fun j hj1 hj2 => hprev j (by omega) hj2)

/-- C8: withRetry makes at most maxRetries + 1 invocations of the operation;
whenever it ends in an error, that error is exactly the outcome of its last
invocation (the re-raised last error); and if some attempt k fails with a
non-retryable error while all earlier attempts failed with retryable errors,
the whole call stops at attempt k with that error and makes no further
invocations. -/
theorem withRetry_bounds {E A : Type} (op : Nat → Except E A)
    (retryable : E → Bool) (n : Nat) :
    (withRetry op retryable n).2 ≤ n + 1 ∧
    (∀ e, (withRetry op retryable n).1 = .error e →
      op (withRetry op retryable n).2 = .error e) ∧
    (∀ k e, 1 ≤ k → k ≤ n + 1 → op k = .error e → retryable e = false →
      (∀ j, 1 ≤ j → j < k → ∃ e2, op j = .error e2 ∧ retryable e2 = true) →
      withRetry op retryable n = (.error e, k)) := by
  refine ⟨?_, ?_, ?_⟩
  · have := retryRun_count_le op retryable n 1
    unfold withRetry
    omega
  · intro e h
    exact retryRun_last_error op retryable n 1 e h
  · intro k e h1 h2 hop hr hprev
    exact retryRun_stops op retryable n 1 k e h1 (by omega) hop hr hprev

/-- C8 witness: with five retries allowed, an operation whose k-th attempt
fails with error k under a condition that only error 2 is non-retryable is
invoked exactly twice and re-raises error 2. -/
theorem withRetry_bounds_witness :
    withRetry (fun k => (Except.error k : Except Nat Unit))
      (fun e => decide (e ≠ 2)) 5 = (Except.error 2, 2) :=
  (withRetry_bounds (fun k => (Except.error k : Except Nat Unit))
      (fun e => decide (e ≠ 2)) 5).2.2 2 2
    (by decide) (by decide) rfl (by decide)
    (fun j hj1 hj2 => ⟨j, rfl, by simp only [decide_eq_true_eq]; omega⟩)

/-- A tracked item as stored (interface Note): metric fields are optional in
the row and the code defaults each absent one to 0. -/
structure Note where
  id : String
  url : String
  app_id : Option String
  likes_count : Option Int
  collects_count : Option Int
  comments_count : Option Int
  views_count : Option Int
  shares_count : Option Int
deriving DecidableEq

/-- The freshly crawled metric values passed to
updateNoteWithEmailNotification as newData. -/
structure NoteNewData where
  likes_count : Int
  collects_count : Int
  comments_count : Int
  views_count : Int
  shares_count : Int
deriving DecidableEq

/-- An entity that owns tracked items (interface Application). -/
structure Application where
  id : String
  name : String
  user_id : String
deriving DecidableEq

/-- The change test of updateNoteWithEmailNotification step 3: some new
value differs from the stored value defaulted to 0. -/
def hasChanges (note : Note) (newData : NoteNewData) : Bool :=
  decide (newData.likes_count ≠ note.likes_count.getD 0) ||
  decide (newData.collects_count ≠ note.collects_count.getD 0) ||
  decide (newData.comments_count ≠ note.comments_count.getD 0) ||
  decide (newData.views_count ≠ note.views_count.getD 0) ||
  decide (newData.shares_count ≠ note.shares_count.getD 0)

/-- One per-metric delta entry of the changes object. -/
structure MetricDelta where
  old : Int
  new : Int
  diff : Int
deriving DecidableEq

/-- The changes object of updateNoteWithEmailNotification step 6: one delta
per metric. -/
structure NoteChanges where
  likes : MetricDelta
  collects : MetricDelta
  comments : MetricDelta
  views : MetricDelta
  shares : MetricDelta
deriving DecidableEq

/-- The changes computation of updateNoteWithEmailNotification step 6: for
every metric, old is the stored value defaulted to 0, new is the crawled
value, diff is new minus old. -/
def computeChanges (note : Note) (newData : NoteNewData) : NoteChanges :=
  { likes :=
      { old := note.likes_count.getD 0, new := newData.likes_count,
        diff := newData.likes_count - note.likes_count.getD 0 }
    collects :=
      { old := note.collects_count.getD 0, new := newData.collects_count,
        diff := newData.collects_count - note.collects_count.getD 0 }
    comments :=
      { old := note.comments_count.getD 0, new := newData.comments_count,
        diff := newData.comments_count - note.comments_count.getD 0 }
    views :=
      { old := note.views_count.getD 0, new := newData.views_count,
        diff := newData.views_count - note.views_count.getD 0 }
    shares :=
      { old := note.shares_count.getD 0, new := newData.shares_count,
        diff := newData.shares_count - note.shares_count.getD 0 } }

/-- Outcome of one updateNoteWithEmailNotification call. -/
inductive NoteUpdateOutcome where
  | updateFailed (msg : String)
  | skippedNoAppId
  | skippedNoChanges
  | skippedAppNotFound
  | skippedNoEmail
  | emailSent (userEmail : String) (changes : NoteChanges)
  | emailFailedButUpdated (userEmail : String) (changes : NoteChanges)
deriving DecidableEq

/-- DataUpdateService.updateNoteWithEmailNotification: persist the new
metrics (a failure there is rethrown), then skip notification when the note
has no app_id, when nothing changed, when the application or the user email
cannot be resolved; otherwise compute the changes and send the mail, with a
send failure swallowed. -/
def updateNoteWithEmailNotification (note : Note) (newData : NoteNewData)
    (supabaseUpdate : Except String Unit)
    (getApplicationByAppId : String → Option Application)
    (getUserEmailByUserId : String → Option String)
    (sendNoteNotification : Except String Unit) : NoteUpdateOutcome :=
  match supabaseUpdate with
  | .error m => .updateFailed m
  | .ok _ =>
    match note.app_id with
    | none => .skippedNoAppId
    | some appId =>
      if hasChanges note newData then
        match getApplicationByAppId appId with
        | none => .skippedAppNotFound
        | some app =>
          match getUserEmailByUserId app.user_id with
          | none => .skippedNoEmail
          | some email =>
            match sendNoteNotification with
            | .ok _ => .emailSent email (computeChanges note newData)
            | .error _ => .emailFailedButUpdated email (computeChanges note newData)
      else .skippedNoChanges

/-- Whether an outcome involved handing a notification to the sender. -/
def notificationSent : NoteUpdateOutcome → Bool
  | .emailSent _ _ => true
  | .emailFailedButUpdated _ _ => true
  | _ => false

/-- C7: each per-metric delta is old-new-diff with old the stored value
defaulted to 0, new the crawled value and diff their difference, and the
change flag is true exactly when at least one of the five diffs is nonzero
(so an unchanged snapshot gives a false change flag). -/
theorem hasChanges_iff_diff_nonzero (note : Note) (newData : NoteNewData) :
    ((computeChanges note newData).likes =
        { old := note.likes_count.getD 0, new := newData.likes_count,
          diff := newData.likes_count - note.likes_count.getD 0 } ∧
      (computeChanges note newData).collects =
        { old := note.collects_count.getD 0, new := newData.collects_count,
          diff := newData.collects_count - note.collects_count.getD 0 } ∧
      (computeChanges note newData).comments =
        { old := note.comments_count.getD 0, new := newData.comments_count,
          diff := newData.comments_count - note.comments_count.getD 0 } ∧
      (computeChanges note newData).views =
        { old := note.views_count.getD 0, new := newData.views_count,
          diff := newData.views_count - note.views_count.getD 0 } ∧
      (computeChanges note newData).shares =
        { old := note.shares_count.getD 0, new := newData.shares_count,
          diff := newData.shares_count - note.shares_count.getD 0 }) ∧
    (hasChanges note newData = true ↔
      ((computeChanges note newData).likes.diff ≠ 0 ∨
        (computeChanges note newData).collects.diff ≠ 0 ∨
        (computeChanges note newData).comments.diff ≠ 0 ∨
        (computeChanges note newData).views.diff ≠ 0 ∨
        (computeChanges note newData).shares.diff ≠ 0)) := by
  refine ⟨⟨rfl, rfl, rfl, rfl, rfl⟩, ?_⟩
  simp only [hasChanges, computeChanges, Bool.or_eq_true, decide_eq_true_eq,
    sub_ne_zero, or_assoc]

/-- C10: when every stored metric field of the note is absent, each delta
uses old 0 and the change flag compares the new values against 0, so a crawl
returning all-zero metrics yields no change and no notification attempt. -/
theorem missing_metrics_default_zero (note : Note) (newData : NoteNewData)
    (h1 : note.likes_count = none) (h2 : note.collects_count = none)
    (h3 : note.comments_count = none) (h4 : note.views_count = none)
    (h5 : note.shares_count = none) :
    ((computeChanges note newData).likes.old = 0 ∧
      (computeChanges note newData).collects.old = 0 ∧
      (computeChanges note newData).comments.old = 0 ∧
      (computeChanges note newData).views.old = 0 ∧
      (computeChanges note newData).shares.old = 0) ∧
    (hasChanges note newData = true ↔
      (newData.likes_count ≠ 0 ∨ newData.collects_count ≠ 0 ∨
        newData.comments_count ≠ 0 ∨ newData.views_count ≠ 0 ∨
        newData.shares_count ≠ 0)) ∧
    (newData = { likes_count := 0, collects_count := 0, comments_count := 0,
                 views_count := 0, shares_count := 0 } →
      hasChanges note newData = false ∧
      ∀ (getApplicationByAppId : String → Option Application)
        (getUserEmailByUserId : String → Option String)
        (sendNoteNotification : Except String Unit),
        notificationSent (updateNoteWithEmailNotification note newData
          (.ok ()) getApplicationByAppId getUserEmailByUserId
          sendNoteNotification) = false) := by
  refine ⟨?_, ?_, ?_⟩
  · simp [computeChanges, h1, h2, h3, h4, h5]
  · simp [hasChanges, h1, h2, h3, h4, h5, or_assoc]
  · intro hzero
    subst hzero
    have hc : hasChanges note
        { likes_count := 0, collects_count := 0, comments_count := 0,
          views_count := 0, shares_count := 0 } = false := by
      simp [hasChanges, h1, h2, h3, h4, h5]
    refine ⟨hc, ?_⟩
    intro ga gu se
    unfold updateNoteWithEmailNotification
    cases note.app_id with
    | none => rfl
    | some appId => simp [hc, notificationSent]

/-- Concrete tracked item with no stored metrics, used by the C10 witness. -/
def bareNote : Note :=
  { id := "note-1", url := "https://example.com/1", app_id := some "app-1",
    likes_count := none, collects_count := none, comments_count := none,
    views_count := none, shares_count := none }

/-- C10 witness: a note with no stored metrics and an all-zero crawl result
produces no change and no notification attempt. -/
theorem missing_metrics_default_zero_witness :
    hasChanges bareNote
        { likes_count := 0, collects_count := 0, comments_count := 0,
          views_count := 0, shares_count := 0 } = false ∧
    notificationSent (updateNoteWithEmailNotification bareNote
      { likes_count := 0, collects_count := 0, comments_count := 0,
        views_count := 0, shares_count := 0 }
      (.ok ()) (fun _ => none) (fun _ => none) (.ok ())) = false := by
  have h := (missing_metrics_default_zero bareNote
    { likes_count := 0, collects_count := 0, comments_count := 0,
      views_count := 0, shares_count := 0 }
    rfl rfl rfl rfl rfl).2.2 rfl
  exact ⟨h.1, h.2 (fun _ => none) (fun _ => none) (.ok ())⟩

/-- The updateStatus component of the system status. -/
inductive UpdateStatus where
  | idle
  | updating
  | completed
  | failed
deriving DecidableEq

/-- The progress component of the system status. -/
structure BatchProgress where
  total : Nat
  processed : Nat
  failed : Nat
deriving DecidableEq

/-- One updateSystemStatus call: the partial record of fields written
(timestamps are not modelled). -/
structure StatusUpdate where
  updateStatus : Option UpdateStatus := none
  progress : Option BatchProgress := none
  error : Option String := none
deriving DecidableEq

/-- One externally visible write of the batch orchestrator: a status update
persisted to the progress store, or the deletion of the progress record. -/
inductive BatchEvent where
  | statusUpdate (u : StatusUpdate)
  | deleteProgress
deriving DecidableEq

/-- What happened for one application during the run: either the crawl (or
the surrounding per-entity code) failed for an application with the given
number of notes, or the crawl succeeded and each note's update finished with
the given success flag. -/
inductive EntityOutcome where
  | crawlFailed (numNotes : Nat)
  | crawlOk (noteResults : List Bool)
deriving DecidableEq

/-- Number of notes of an application. -/
def numNotes : EntityOutcome → Nat
  | .crawlFailed n => n
  | .crawlOk rs => rs.length

/-- The onComplete callback sequence of processBatchWithConcurrency: after
each note, the matching counter is incremented and the progress persisted. -/
def noteEvents (total : Nat) : List Bool → Nat → Nat → List BatchEvent × Nat × Nat
  | [], p, f => ([], p, f)
  | ok :: rest, p, f =>
    let p2 := if ok then p + 1 else p
    let f2 := if ok then f else f + 1
    let next := noteEvents total rest p2 f2
    (.statusUpdate { progress := some ⟨total, p2, f2⟩ } :: next.1, next.2)

/-- The per-application body of the startBatchUpdate loop: on a failed crawl
both counters advance by the whole note count in one persisted update; on a
successful crawl the notes are processed one by one. -/
def entityEvents (total : Nat) : EntityOutcome → Nat → Nat → List BatchEvent × Nat × Nat
  | .crawlFailed n, p, f =>
    ([.statusUpdate { progress := some ⟨total, p + n, f + n⟩ }], p + n, f + n)
  | .crawlOk rs, p, f => noteEvents total rs p f

/-- The application loop of startBatchUpdate, threading the two counters. -/
def entityLoop (total : Nat) : List EntityOutcome → Nat → Nat → List BatchEvent
  | [], _, _ => []
  | e :: es, p, f =>
    let step := entityEvents total e p f
    step.1 ++ entityLoop total es step.2.1 step.2.2

/-- The tail of every run: mark completed, then delete the progress record;
when the deletion throws, the outer catch marks the run failed with the
error message (and the record stays). -/
def completionEvents (deleteErr : Option String) : List BatchEvent :=
  match deleteErr with
  | none => [.statusUpdate { updateStatus := some .completed }, .deleteProgress]
  | some m =>
    [.statusUpdate { updateStatus := some .completed },
     .statusUpdate { updateStatus := some .failed, error := some m }]

/-- The collaborator behaviour a run encounters: fetchAllApplicationsWithNotes
yields `none` on any data-store error (the method catches everything and
returns null) or the listed per-application outcomes; deleteErr is the error
the progress-record deletion throws, if any. -/
structure BatchEnv where
  fetchResult : Option (List EntityOutcome)
  deleteErr : Option String
deriving DecidableEq

/-- DataUpdateService.startBatchUpdate as the sequence of its externally
visible writes.  A call while isUpdating is already true returns before
writing anything.  Otherwise the run marks updating with zero progress, and
a null or empty fetch result is finished exactly like a completed run;
a non-empty result persists the total and runs the application loop. -/
def startBatchUpdate (isUpdating : Bool) (env : BatchEnv) : List BatchEvent :=
  if isUpdating then []
  else
    .statusUpdate { updateStatus := some .updating, progress := some ⟨0, 0, 0⟩ } ::
    match env.fetchResult with
    | none => completionEvents env.deleteErr
    | some [] => completionEvents env.deleteErr
    | some (e :: es) =>
      let total := ((e :: es).map numNotes).sum
      .statusUpdate { progress := some ⟨total, 0, 0⟩ } ::
      (entityLoop total (e :: es) 0 0 ++ completionEvents env.deleteErr)

/-- Every progress value persisted during a run, in order. -/
def observedProgress (evs : List BatchEvent) : List BatchProgress :=
  evs.filterMap (fun e =>
    match e with
    | .statusUpdate u => u.progress
    | .deleteProgress => none)

/-- How one write changes the stored updateStatus. -/
def statusStep (acc : Option UpdateStatus) (e : BatchEvent) : Option UpdateStatus :=
  match e with
  | .statusUpdate u =>
    match u.updateStatus with
    | some s => some s
    | none => acc
  | .deleteProgress => acc

/-- The updateStatus in force after the run's writes. -/
def finalUpdateStatus (evs : List BatchEvent) : Option UpdateStatus :=
  evs.foldl statusStep none

/-- How one write changes the stored error message. -/
def errorStep (acc : Option String) (e : BatchEvent) : Option String :=
  match e with
  | .statusUpdate u =>
    match u.error with
    | some m => some m
    | none => acc
  | .deleteProgress => acc

/-- The error message in force after the run's writes. -/
def finalError (evs : List BatchEvent) : Option String :=
  evs.foldl errorStep none

/-- How one write changes whether the progress record exists (every status
update re-persists it; deleteProgress removes it). -/
def presenceStep (_acc : Bool) (e : BatchEvent) : Bool :=
  match e with
  | .statusUpdate _ => true
  | .deleteProgress => false

/-- Whether the progress record is present in the store after the run's
writes. -/
def progressRecordPresent (evs : List BatchEvent) : Bool :=
  evs.foldl presenceStep false

theorem observedProgress_completion (d : Option String) :
    observedProgress (completionEvents d) = [] := by
  cases d <;> rfl

theorem observedProgress_cons_some (u : StatusUpdate) (pr : BatchProgress)
    (evs : List BatchEvent) (h : u.progress = some pr) :
    observedProgress (.statusUpdate u :: evs) = pr :: observedProgress evs := by
  simp [observedProgress, List.filterMap_cons, h]

theorem observedProgress_append (xs ys : List BatchEvent) :
    observedProgress (xs ++ ys) = observedProgress xs ++ observedProgress ys := by
  simp [observedProgress, List.filterMap_append]

theorem noteEvents_facts (total : Nat) :
    ∀ (rs : List Bool) (p f : Nat),
      ((noteEvents total rs p f).2.1 ≤ p + rs.length ∧
        (noteEvents total rs p f).2.2 ≤ f + rs.length) ∧
      (p + rs.length ≤ total → f + rs.length ≤ total →
        ∀ pr ∈ observedProgress (noteEvents total rs p f).1,
          pr.processed ≤ pr.total ∧ pr.failed ≤ pr.total) := by
  intro rs
  induction rs with
  | nil =>
    intro p f
    refine ⟨⟨?_, ?_⟩, ?_⟩
    · simp [noteEvents]
    · simp [noteEvents]
    · intro _ _ pr hpr
      simp [noteEvents, observedProgress] at hpr
  | cons ok rest ih =>
    intro p f
    have hstep : noteEvents total (ok :: rest) p f =
        (.statusUpdate
            { progress := some ⟨total, if ok then p + 1 else p,
                if ok then f else f + 1⟩ } ::
          (noteEvents total rest (if ok then p + 1 else p)
            (if ok then f else f + 1)).1,
          (noteEvents total rest (if ok then p + 1 else p)
            (if ok then f else f + 1)).2) := rfl
    have ihr := ih (if ok then p + 1 else p) (if ok then f else f + 1)
    refine ⟨⟨?_, ?_⟩, ?_⟩
    · rw [hstep]
      have := ihr.1.1
      by_cases hok : ok <;> simp [hok] at this ⊢ <;> omega
    · rw [hstep]
      have := ihr.1.2
      by_cases hok : ok <;> simp [hok] at this ⊢ <;> omega
    · intro hp hf pr hpr
      simp only [List.length_cons] at hp hf
      rw [hstep] at hpr
      simp only [observedProgress, List.filterMap_cons] at hpr
      rcases List.mem_cons.mp hpr with hhead | htail
      · subst hhead
        constructor <;> by_cases hok : ok <;> simp [hok] <;> omega
      · exact ihr.2 (by by_cases hok : ok <;> simp [hok] <;> omega)
          (by by_cases hok : ok <;> simp [hok] <;> omega) pr htail

theorem entityEvents_facts (total : Nat) (e : EntityOutcome) (p f : Nat) :
    ((entityEvents total e p f).2.1 ≤ p + numNotes e ∧
      (entityEvents total e p f).2.2 ≤ f + numNotes e) ∧
    (p + numNotes e ≤ total → f + numNotes e ≤ total →
      ∀ pr ∈ observedProgress (entityEvents total e p f).1,
        pr.processed ≤ pr.total ∧ pr.failed ≤ pr.total) := by
  cases e with
  | crawlFailed n =>
    refine ⟨⟨le_refl _, le_refl _⟩, ?_⟩
    intro hp hf pr hpr
    simp only [entityEvents, observedProgress, List.filterMap_cons,
      List.filterMap_nil, numNotes] at hpr hp hf
    rcases List.mem_cons.mp hpr with hhead | htail
    · subst hhead
      exact ⟨hp, hf⟩
    · simp at htail
  | crawlOk rs =>
    exact noteEvents_facts total rs p f

theorem entityLoop_bound (total : Nat) :
    ∀ (es : List EntityOutcome) (p f : Nat),
      p + (es.map numNotes).sum ≤ total →
      f + (es.map numNotes).sum ≤ total →
      ∀ pr ∈ observedProgress (entityLoop total es p f),
        pr.processed ≤ pr.total ∧ pr.failed ≤ pr.total := by
  intro es
  induction es with
  | nil =>
    intro p f _ _ pr hpr
    simp [entityLoop, observedProgress] at hpr
  | cons e es ih =>
    intro p f hp hf pr hpr
    simp only [List.map_cons, List.sum_cons] at hp hf
    have hfacts := entityEvents_facts total e p f
    simp only [entityLoop, observedProgress, List.filterMap_append] at hpr
    rcases List.mem_append.mp hpr with hfirst | hrest
    · exact hfacts.2 (by omega) (by omega) pr hfirst
    · exact ih (entityEvents total e p f).2.1 (entityEvents total e p f).2.2
        (by have := hfacts.1.1; omega) (by have := hfacts.1.2; omega) pr hrest

/-- C1 counterexample: one application whose single note fails its crawl
drives both counters to 1 while the total is 1, so the persisted progress
1 + 1 exceeds the total, falsifying processed + failed ≤ total. -/
theorem progress_invariant_counterexample :
    BatchProgress.mk 1 1 1 ∈ observedProgress
      (startBatchUpdate false
        { fetchResult := some [.crawlFailed 1], deleteErr := none }) ∧
    ¬ ((1 : Nat) + 1 ≤ 1) := by
  decide

/-- C1 (amended): at every persisted observation point of every run,
processed ≤ total and failed ≤ total (each note is counted at most once in
each counter; the sum of the two can however reach 2 * total, because an
entity-level crawl failure advances both counters by the note count). -/
theorem progress_bounds (isUpdating : Bool) (env : BatchEnv) :
    ∀ pr ∈ observedProgress (startBatchUpdate isUpdating env),
      pr.processed ≤ pr.total ∧ pr.failed ≤ pr.total := by
  intro pr hpr
  cases isUpdating with
  | true =>
    simp [startBatchUpdate, observedProgress] at hpr
  | false =>
    cases hfetch : env.fetchResult with
    | none =>
      have hev : startBatchUpdate false env =
          .statusUpdate
              { updateStatus := some .updating, progress := some ⟨0, 0, 0⟩ } ::
            completionEvents env.deleteErr := by
        unfold startBatchUpdate
        rw [hfetch]
        rfl
      rw [hev, observedProgress_cons_some
            { updateStatus := some .updating, progress := some ⟨0, 0, 0⟩ }
            ⟨0, 0, 0⟩ (completionEvents env.deleteErr) rfl,
          observedProgress_completion env.deleteErr] at hpr
      simp at hpr
      subst hpr
      exact ⟨le_refl 0, le_refl 0⟩
    | some es =>
      cases es with
      | nil =>
        have hev : startBatchUpdate false env =
            .statusUpdate
                { updateStatus := some .updating, progress := some ⟨0, 0, 0⟩ } ::
              completionEvents env.deleteErr := by
          unfold startBatchUpdate
          rw [hfetch]
          rfl
        rw [hev, observedProgress_cons_some
              { updateStatus := some .updating, progress := some ⟨0, 0, 0⟩ }
              ⟨0, 0, 0⟩ (completionEvents env.deleteErr) rfl,
            observedProgress_completion env.deleteErr] at hpr
        simp at hpr
        subst hpr
        exact ⟨le_refl 0, le_refl 0⟩
      | cons e es =>
        have hev : startBatchUpdate false env =
            .statusUpdate
                { updateStatus := some .updating, progress := some ⟨0, 0, 0⟩ } ::
              .statusUpdate
                { progress := some ⟨((e :: es).map numNotes).sum, 0, 0⟩ } ::
              (entityLoop ((e :: es).map numNotes).sum (e :: es) 0 0 ++
                completionEvents env.deleteErr) := by
          unfold startBatchUpdate
          rw [hfetch]
          rfl
        rw [hev, observedProgress_cons_some
              { updateStatus := some .updating, progress := some ⟨0, 0, 0⟩ }
              ⟨0, 0, 0⟩ _ rfl,
            observedProgress_cons_some
              { progress := some ⟨((e :: es).map numNotes).sum, 0, 0⟩ }
              ⟨((e :: es).map numNotes).sum, 0, 0⟩ _ rfl,
            observedProgress_append,
            observedProgress_completion env.deleteErr,
            List.append_nil] at hpr
        rcases List.mem_cons.mp hpr with h0 | hpr2
        · subst h0
          exact ⟨le_refl 0, Nat.zero_le _⟩
        · rcases List.mem_cons.mp hpr2 with h1 | hloop
          · subst h1
            exact ⟨Nat.zero_le _, Nat.zero_le _⟩
          · exact entityLoop_bound ((List.map numNotes (e :: es)).sum)
              (e :: es) 0 0 (by omega) (by omega) pr hloop

/-- C1 witness: the counterexample run itself satisfies the amended bounds
at its over-counted observation point. -/
theorem progress_bounds_witness :
    BatchProgress.mk 1 1 1 ∈ observedProgress
      (startBatchUpdate false
        { fetchResult := some [.crawlFailed 1], deleteErr := none }) ∧
    ((1 : Nat) ≤ 1 ∧ (1 : Nat) ≤ 1) :=
  ⟨by decide,
    progress_bounds false { fetchResult := some [.crawlFailed 1], deleteErr := none }
      (BatchProgress.mk 1 1 1) (by decide)⟩

theorem statusStep_completion_none (acc : Option UpdateStatus) :
    (completionEvents none).foldl statusStep acc = some .completed := rfl

theorem statusStep_completion_some (m : String) (acc : Option UpdateStatus) :
    (completionEvents (some m)).foldl statusStep acc = some .failed := rfl

theorem errorStep_completion_some (m : String) (acc : Option String) :
    (completionEvents (some m)).foldl errorStep acc = some m := rfl

theorem presenceStep_completion_none (acc : Bool) :
    (completionEvents none).foldl presenceStep acc = false := rfl

theorem presenceStep_completion_some (m : String) (acc : Bool) :
    (completionEvents (some m)).foldl presenceStep acc = true := rfl

/-- C2 counterexample: when fetchAllApplicationsWithNotes hits a data-store
failure it yields null, and the run then ends with updateStatus completed
and the progress record deleted, not with updateStatus failed and the record
kept as the claim states. -/
theorem systemic_failure_counterexample :
    finalUpdateStatus (startBatchUpdate false
        { fetchResult := none, deleteErr := none }) = some .completed ∧
    progressRecordPresent (startBatchUpdate false
        { fetchResult := none, deleteErr := none }) = false := by
  constructor <;> rfl

/-- C2 (amended): a data-store failure while enumerating applications and
notes is swallowed by fetchAllApplicationsWithNotes (null result) and the
run ends updateStatus completed with the progress record deleted, exactly
like an empty result; only an error thrown inside the orchestration body
itself — such as a progress-record deletion failure — ends the run with
updateStatus failed and the error message recorded, leaving the progress
record in the store. -/
theorem systemic_failure_handling (env : BatchEnv) :
    (env.fetchResult = none → env.deleteErr = none →
      finalUpdateStatus (startBatchUpdate false env) = some .completed ∧
      progressRecordPresent (startBatchUpdate false env) = false) ∧
    (∀ m, env.deleteErr = some m →
      finalUpdateStatus (startBatchUpdate false env) = some .failed ∧
      finalError (startBatchUpdate false env) = some m ∧
      progressRecordPresent (startBatchUpdate false env) = true) := by
  constructor
  · intro hfetch hdel
    have hev : startBatchUpdate false env =
        .statusUpdate
            { updateStatus := some .updating, progress := some ⟨0, 0, 0⟩ } ::
          completionEvents env.deleteErr := by
      unfold startBatchUpdate
      rw [hfetch]
      rfl
    rw [hev, hdel]
    constructor
    · rw [show finalUpdateStatus (.statusUpdate
          { updateStatus := some .updating, progress := some ⟨0, 0, 0⟩ } ::
            completionEvents none) =
          (completionEvents none).foldl statusStep (some .updating) from rfl]
      exact statusStep_completion_none (some .updating)
    · rw [show progressRecordPresent (.statusUpdate
          { updateStatus := some .updating, progress := some ⟨0, 0, 0⟩ } ::
            completionEvents none) =
          (completionEvents none).foldl presenceStep true from rfl]
      exact presenceStep_completion_none true
  · intro m hdel
    cases hfetch : env.fetchResult with
    | none =>
      have hev : startBatchUpdate false env =
          .statusUpdate
              { updateStatus := some .updating, progress := some ⟨0, 0, 0⟩ } ::
            completionEvents env.deleteErr := by
        unfold startBatchUpdate
        rw [hfetch]
        rfl
      rw [hev, hdel]
      exact ⟨statusStep_completion_some m (some .updating),
        errorStep_completion_some m none,
        presenceStep_completion_some m true⟩
    | some es =>
      cases es with
      | nil =>
        have hev : startBatchUpdate false env =
            .statusUpdate
                { updateStatus := some .updating, progress := some ⟨0, 0, 0⟩ } ::
              completionEvents env.deleteErr := by
          unfold startBatchUpdate
          rw [hfetch]
          rfl
        rw [hev, hdel]
        exact ⟨statusStep_completion_some m (some .updating),
          errorStep_completion_some m none,
          presenceStep_completion_some m true⟩
      | cons e es =>
        have hev : startBatchUpdate false env =
            .statusUpdate
                { updateStatus := some .updating, progress := some ⟨0, 0, 0⟩ } ::
              .statusUpdate
                { progress := some ⟨((e :: es).map numNotes).sum, 0, 0⟩ } ::
              (entityLoop ((e :: es).map numNotes).sum (e :: es) 0 0 ++
                completionEvents env.deleteErr) := by
          unfold startBatchUpdate
          rw [hfetch]
          rfl
        rw [hev, hdel]
        refine ⟨?_, ?_, ?_⟩
        · rw [show finalUpdateStatus (.statusUpdate
              { updateStatus := some .updating, progress := some ⟨0, 0, 0⟩ } ::
                .statusUpdate
                  { progress := some ⟨((e :: es).map numNotes).sum, 0, 0⟩ } ::
                (entityLoop ((e :: es).map numNotes).sum (e :: es) 0 0 ++
                  completionEvents (some m))) =
              (entityLoop ((e :: es).map numNotes).sum (e :: es) 0 0 ++
                completionEvents (some m)).foldl statusStep
                (some .updating) from rfl,
            List.foldl_append]
          exact statusStep_completion_some m _
        · rw [show finalError (.statusUpdate
              { updateStatus := some .updating, progress := some ⟨0, 0, 0⟩ } ::
                .statusUpdate
                  { progress := some ⟨((e :: es).map numNotes).sum, 0, 0⟩ } ::
                (entityLoop ((e :: es).map numNotes).sum (e :: es) 0 0 ++
                  completionEvents (some m))) =
              (entityLoop ((e :: es).map numNotes).sum (e :: es) 0 0 ++
                completionEvents (some m)).foldl errorStep none from rfl,
            List.foldl_append]
          exact errorStep_completion_some m _
        · rw [show progressRecordPresent (.statusUpdate
              { updateStatus := some .updating, progress := some ⟨0, 0, 0⟩ } ::
                .statusUpdate
                  { progress := some ⟨((e :: es).map numNotes).sum, 0, 0⟩ } ::
                (entityLoop ((e :: es).map numNotes).sum (e :: es) 0 0 ++
                  completionEvents (some m))) =
              (entityLoop ((e :: es).map numNotes).sum (e :: es) 0 0 ++
                completionEvents (some m)).foldl presenceStep true from rfl,
            List.foldl_append]
          exact presenceStep_completion_some m _

/-- C2 witness: a run over one application whose deletion step throws ends
failed with that message recorded and the progress record still present. -/
theorem systemic_failure_handling_witness :
    finalUpdateStatus (startBatchUpdate false
        { fetchResult := some [.crawlOk [true]],
          deleteErr := some "redis unavailable" }) = some .failed ∧
    finalError (startBatchUpdate false
        { fetchResult := some [.crawlOk [true]],
          deleteErr := some "redis unavailable" }) = some "redis unavailable" ∧
    progressRecordPresent (startBatchUpdate false
        { fetchResult := some [.crawlOk [true]],
          deleteErr := some "redis unavailable" }) = true :=
  (systemic_failure_handling
      { fetchResult := some [.crawlOk [true]],
        deleteErr := some "redis unavailable" }).2 "redis unavailable" rfl

/-- C9: a startBatchUpdate invocation made while a run is already in flight
(isUpdating true) performs no writes at all: no progress change, no status
change, no deletion, and nothing queued, so a second run never reaches the
updating state alongside the first. -/
theorem single_flight_noop (env : BatchEnv) :
    startBatchUpdate true env = [] := rfl

/-- The loginStatus component of the system status. -/
inductive LoginState where
  | idle
  | logging_in
  | waiting_sms_code
  | logged_in
  | failed
deriving DecidableEq

/-- The AuthService state touched by the login flow: the persisted status
fields plus the current session (page handle and waiting flag). -/
structure AuthState where
  loginStatus : LoginState
  updateStatus : UpdateStatus
  sessionActive : Bool
  isWaitingForSmsCode : Bool
  lastError : Option String
deriving DecidableEq

/-- AuthService.cleanupSession: close and null the session page and clear
the waiting flag. -/
def cleanupSession (st : AuthState) : AuthState :=
  { st with sessionActive := false, isWaitingForSmsCode := false }

/-- AuthService.startPhoneLoginProcess: unconditionally clean up any prior
session, mark logging_in with the error cleared, create a page, drive the
number-entry and code-request steps (their combined outcome is
`loginSteps`), and on success mark waiting_sms_code; on a step failure mark
failed with the message, clean up, and return the error. -/
def startPhoneLoginProcess (st : AuthState) (loginSteps : Except String Unit) :
    AuthState × Option String :=
  let st1 := { cleanupSession st with loginStatus := .logging_in, lastError := none }
  let st2 := { st1 with sessionActive := true }
  match loginSteps with
  | .ok _ =>
    ({ st2 with loginStatus := .waiting_sms_code, isWaitingForSmsCode := true },
      none)
  | .error m =>
    (cleanupSession { st2 with loginStatus := .failed, lastError := some m },
      some m)

/-- The phone-number format test of AuthController.startPhoneLogin: the
digit 1, a digit 3 to 9, then nine digits (code points). -/
def phoneRegexTest : List Nat → Bool
  | c1 :: c2 :: rest =>
    c1 == 49 && (51 ≤ c2 && c2 ≤ 57) && rest.length == 9 &&
      rest.all (fun c => 48 ≤ c && c ≤ 57)
  | _ => false

/-- The HTTP response of the phone-login endpoint. -/
inductive PhoneLoginResponse where
  | badRequest (message : String)
  | okResponse (phoneNumber : List Nat)
deriving DecidableEq

/-- AuthController.startPhoneLogin: reject an empty or malformed number,
reject while loginStatus is logging_in or waiting_sms_code, reject while
updateStatus is updating, and only then invoke
AuthService.startPhoneLoginProcess, turning its error into a bad request. -/
def startPhoneLogin (st : AuthState) (phoneNumber : List Nat)
    (loginSteps : Except String Unit) : AuthState × PhoneLoginResponse :=
  if phoneNumber.isEmpty then (st, .badRequest "手机号不能为空")
  else if !phoneRegexTest phoneNumber then (st, .badRequest "手机号格式不正确")
  else if st.loginStatus = .logging_in ∨ st.loginStatus = .waiting_sms_code then
    (st, .badRequest "正在登录中，请稍候")
  else if st.updateStatus = .updating then
    (st, .badRequest "正在更新数据中，请稍候")
  else
    match startPhoneLoginProcess st loginSteps with
    | (st2, none) => (st2, .okResponse phoneNumber)
    | (st2, some m) => (st2, .badRequest m)

/-- A state in the middle of a challenge, used for C3. -/
def awaitingState : AuthState :=
  { loginStatus := .waiting_sms_code, updateStatus := .idle,
    sessionActive := true, isWaitingForSmsCode := true, lastError := none }

/-- C3 counterexample: calling startPhoneLoginProcess itself while the state
is waiting_sms_code does not fail with an already-in-progress error — it
returns success, having reset the previous session and driven the flow back
to waiting_sms_code. -/
theorem startPhoneLoginProcess_no_guard :
    awaitingState.loginStatus = .waiting_sms_code ∧
    (startPhoneLoginProcess awaitingState (.ok ())).2 = none ∧
    (startPhoneLoginProcess awaitingState (.ok ())).1.loginStatus =
      .waiting_sms_code := by
  decide

/-- C3 (amended): the already-in-progress guard lives in the HTTP controller,
not in startPhoneLoginProcess.  A phone-login request with a well-formed
number made while loginStatus is logging_in or waiting_sms_code is rejected
with the in-progress message and the state untouched; outside those states
(and outside updateStatus updating) the controller invokes
startPhoneLoginProcess, which resets any prior session and on success
drives the state to waiting_sms_code. -/
theorem startPhoneLogin_guard (st : AuthState) (phoneNumber : List Nat)
    (loginSteps : Except String Unit) :
    (phoneRegexTest phoneNumber = true →
      (st.loginStatus = .logging_in ∨ st.loginStatus = .waiting_sms_code) →
      startPhoneLogin st phoneNumber loginSteps =
        (st, .badRequest "正在登录中，请稍候")) ∧
    (phoneRegexTest phoneNumber = true →
      st.loginStatus ≠ .logging_in → st.loginStatus ≠ .waiting_sms_code →
      st.updateStatus ≠ .updating →
      startPhoneLogin st phoneNumber (.ok ()) =
        ({ st with
            loginStatus := .waiting_sms_code, sessionActive := true,
            isWaitingForSmsCode := true, lastError := none },
          .okResponse phoneNumber)) := by
  have hnonempty : phoneRegexTest phoneNumber = true →
      phoneNumber.isEmpty = false := by
    intro h
    cases phoneNumber with
    | nil => exact absurd h (by simp [phoneRegexTest])
    | cons c cs => rfl
  constructor
  · intro hre hprog
    unfold startPhoneLogin
    rw [hnonempty hre, hre]
    simp only [Bool.false_eq_true, if_false, Bool.not_true, if_pos hprog]
  · intro hre hli hwa hup
    unfold startPhoneLogin
    rw [hnonempty hre, hre]
    have hprog : ¬ (st.loginStatus = .logging_in ∨
        st.loginStatus = .waiting_sms_code) := by
      intro h
      rcases h with h | h
      · exact hli h
      · exact hwa h
    simp only [Bool.false_eq_true, if_false, Bool.not_true, if_neg hprog,
      if_neg hup]
    rfl

/-- A well-formed phone number for the C3 witness. -/
def validPhone : List Nat := [49, 51, 48, 48, 48, 48, 48, 48, 48, 48, 48]

/-- C3 witness: a well-formed request while the session awaits its challenge
code is rejected with the in-progress message and the state is unchanged. -/
theorem startPhoneLogin_guard_witness :
    startPhoneLogin awaitingState validPhone (.ok ()) =
      (awaitingState, .badRequest "正在登录中，请稍候") :=
  (startPhoneLogin_guard awaitingState validPhone (.ok ())).1
    (by decide) (Or.inr rfl)
